import Mathlib

/-!
Shallow embedding of three files of the PaddleSpeech repository:

* `paddlespeech/t2s/models/parallel_wavegan/parallel_wavegan_updater.py`
  (`PWGUpdater.update_core`, `PWGEvaluator.evaluate_core`),
* `paddlespeech/text/speechtask/punctuation_restoration/training/trainer.py`
  (`Trainer.save`, `Trainer.resume_or_scratch`, `Trainer.train`,
  `Trainer.valid`, `Trainer.setup_model`),
* `paddlespeech/text/speechtask/punctuation_restoration/model/lstm.py`
  (`CrossEntropyLossForLm.forward`).

Tensors of the underlying framework are an abstract type parameter `T`,
scalar loss values are rationals, and the framework layers and criterions
(generator, discriminator, STFT and MSE criterions, token cross-entropy)
are abstract function parameters.  The embedding keeps the control flow,
the loss arithmetic, the dictionary key bookkeeping and the order of
optimizer, scheduler, backward and clear-grad operations of the source:
each side effect of interest is emitted as an event of a trace.
-/

/-- Events performed by `PWGUpdater.update_core` and
`PWGEvaluator.evaluate_core`, in source order: forward passes through the
models and the parameter-updating operations (clear_grad, backward,
optimizer step, scheduler step) of the two optimizers. -/
inductive PWGEvent
  | generatorForward
  | discriminatorForward
  | optimizerGClearGrad
  | genLossBackward
  | optimizerGStep
  | schedulerGStep
  | optimizerDClearGrad
  | disLossBackward
  | optimizerDStep
  | schedulerDStep
deriving DecidableEq, Repr

/-- Events that update or touch the trainable parameters or the learning
rate: clear_grad, backward, optimizer step and scheduler step, of either
the generator or the discriminator side. -/
def PWGEvent.isParamUpdate : PWGEvent → Bool
  | .optimizerGClearGrad | .genLossBackward | .optimizerGStep | .schedulerGStep
  | .optimizerDClearGrad | .disLossBackward | .optimizerDStep | .schedulerDStep => true
  | .generatorForward | .discriminatorForward => false

/-- Optimizer or scheduler step events (the operations that C4 counts). -/
def PWGEvent.isStep : PWGEvent → Bool
  | .optimizerGStep | .schedulerGStep | .optimizerDStep | .schedulerDStep => true
  | _ => false

/-- The models and criterions handed to `PWGUpdater.__init__` /
`PWGEvaluator.__init__`: `models["generator"]`, `models["discriminator"]`,
`criterions["stft"]` (returning the pair `(sc_loss, mag_loss)`),
`criterions["mse"]`, together with the framework primitives
`paddle.ones_like`, `paddle.zeros_like` and `Tensor.detach` that the
updater applies to tensors.  All are abstract functions over the abstract
tensor type `T`; criterion outputs are rational scalars. -/
structure PWGModels (T : Type) where
  generator : T → T → T
  discriminator : T → T
  criterion_stft : T → T → ℚ × ℚ
  criterion_mse : T → T → ℚ
  ones_like : T → T
  zeros_like : T → T
  detach : T → T

/-- Result of one `PWGUpdater.update_core` call: the `losses_dict`
association list in Python-dict insertion order, the generator loss tensor
value that `gen_loss.backward()` backpropagates (also reported as
`train/generator_loss`), the discriminator loss when one was computed, and
the trace of model/optimizer events in source order. -/
structure PWGUpdateResult where
  losses_dict : List (String × ℚ)
  gen_loss : ℚ
  dis_loss : Option ℚ
  trace : List PWGEvent
deriving DecidableEq, Repr

/-- Embedding of `PWGUpdater.update_core` (parallel_wavegan_updater.py,
lines 76-153).  `iteration` is `self.state.iteration` at call time,
`noise` is the `paddle.randn(wav.shape)` draw of this call (randomness is
an explicit input), `batch = (wav, mel)`.  The warm-up gate
`self.state.iteration > self.discriminator_train_start_steps` guards both
the adversarial loss term and the whole discriminator update block. -/
def PWGUpdater.update_core {T : Type} (m : PWGModels T)
    (discriminator_train_start_steps : ℕ) (lambda_adv : ℚ)
    (iteration : ℕ) (noise : T) (batch : T × T) : PWGUpdateResult :=
  let wav := batch.1
  let mel := batch.2
  let wav2 := m.generator noise mel
  let gen_loss0 : ℚ := 0
  let sc_loss := (m.criterion_stft wav2 wav).1
  let mag_loss := (m.criterion_stft wav2 wav).2
  let losses0 : List (String × ℚ) :=
    [("spectral_convergence_loss", sc_loss), ("log_stft_magnitude_loss", mag_loss)]
  let gen_loss1 := gen_loss0 + (sc_loss + mag_loss)
  let gated := iteration > discriminator_train_start_steps
  -- adversarial loss block (gated)
  let p2 := m.discriminator wav2
  let adv_loss := m.criterion_mse p2 (m.ones_like p2)
  let losses1 := if gated then losses0 ++ [("adversarial_loss", adv_loss)] else losses0
  let gen_loss2 := if gated then gen_loss1 + lambda_adv * adv_loss else gen_loss1
  let losses2 := losses1 ++ [("generator_loss", gen_loss2)]
  let genTrace : List PWGEvent :=
    [.generatorForward] ++ (if gated then [.discriminatorForward] else []) ++
    [.optimizerGClearGrad, .genLossBackward, .optimizerGStep, .schedulerGStep]
  -- discriminator block (gated): wav_ regenerated under no_grad from the
  -- same noise and mel, p on the real wav, p_ on the detached fake wav
  let wav3 := m.generator noise mel
  let p := m.discriminator wav
  let p3 := m.discriminator (m.detach wav3)
  let real_loss := m.criterion_mse p (m.ones_like p)
  let fake_loss := m.criterion_mse p3 (m.zeros_like p3)
  let dis_loss := real_loss + fake_loss
  let losses3 := if gated then
      losses2 ++ [("real_loss", real_loss), ("fake_loss", fake_loss),
        ("discriminator_loss", dis_loss)]
    else losses2
  let disTrace : List PWGEvent := if gated then
      [.generatorForward, .discriminatorForward, .discriminatorForward,
       .optimizerDClearGrad, .disLossBackward, .optimizerDStep, .schedulerDStep]
    else []
  { losses_dict := losses3
    gen_loss := gen_loss2
    dis_loss := if gated then some dis_loss else none
    trace := genTrace ++ disTrace }

/-- Result of one `PWGEvaluator.evaluate_core` call: the `losses_dict`
association list in insertion order, the reported `eval/generator_loss`,
and the trace of model events. -/
structure PWGEvalResult where
  losses_dict : List (String × ℚ)
  gen_loss : ℚ
  dis_loss : ℚ
  trace : List PWGEvent
deriving DecidableEq, Repr

/-- Embedding of `PWGEvaluator.evaluate_core` (parallel_wavegan_updater.py,
lines 180-231).  There is no iteration parameter and no gating: the
adversarial loss is computed first and `gen_loss` starts as
`lambda_adv * adv_loss`, then the STFT losses are added; the discriminator
losses reuse the `p_` computed for the adversarial loss.  No optimizer,
scheduler, backward or clear_grad operation occurs. -/
def PWGEvaluator.evaluate_core {T : Type} (m : PWGModels T)
    (lambda_adv : ℚ) (noise : T) (batch : T × T) : PWGEvalResult :=
  let wav := batch.1
  let mel := batch.2
  let wav2 := m.generator noise mel
  let p2 := m.discriminator wav2
  let adv_loss := m.criterion_mse p2 (m.ones_like p2)
  let gen_loss0 := lambda_adv * adv_loss
  let sc_loss := (m.criterion_stft wav2 wav).1
  let mag_loss := (m.criterion_stft wav2 wav).2
  let gen_loss1 := gen_loss0 + (sc_loss + mag_loss)
  let p := m.discriminator wav
  let real_loss := m.criterion_mse p (m.ones_like p)
  let fake_loss := m.criterion_mse p2 (m.zeros_like p2)
  let dis_loss := real_loss + fake_loss
  { losses_dict :=
      [("adversarial_loss", adv_loss),
       ("spectral_convergence_loss", sc_loss),
       ("log_stft_magnitude_loss", mag_loss),
       ("generator_loss", gen_loss1),
       ("real_loss", real_loss),
       ("fake_loss", fake_loss),
       ("discriminator_loss", dis_loss)]
    gen_loss := gen_loss1
    dis_loss := dis_loss
    trace := [.generatorForward, .discriminatorForward, .discriminatorForward] }

/-- Concrete instantiation of the abstract models over the unit tensor
type, used by witnesses: the STFT criterion returns `(3, 5)` and the MSE
criterion returns `7` on every input. -/
def pwgTestModels : PWGModels Unit :=
  { generator := fun _ _ => ()
    discriminator := fun _ => ()
    criterion_stft := fun _ _ => (3, 5)
    criterion_mse := fun _ _ => 7
    ones_like := fun _ => ()
    zeros_like := fun _ => ()
    detach := fun _ => () }

/-- C1: warm-up gating of `PWGUpdater.update_core`.  When
`iteration > discriminator_train_start_steps` the adversarial loss term is
added to the generator loss and the discriminator parameters are updated;
when `iteration ≤ discriminator_train_start_steps` the backpropagated
generator loss is exactly the multi-resolution STFT reconstruction loss
`sc_loss + mag_loss` and the trace contains no discriminator-side
parameter update. -/
theorem C1_warmup_gating {T : Type} (m : PWGModels T)
    (s : ℕ) (lambda_adv : ℚ) (iteration : ℕ) (noise : T) (batch : T × T) :
    (iteration > s →
      (PWGUpdater.update_core m s lambda_adv iteration noise batch).gen_loss =
        (m.criterion_stft (m.generator noise batch.2) batch.1).1 +
        (m.criterion_stft (m.generator noise batch.2) batch.1).2 +
        lambda_adv * m.criterion_mse (m.discriminator (m.generator noise batch.2))
          (m.ones_like (m.discriminator (m.generator noise batch.2))) ∧
      PWGEvent.optimizerDStep ∈
        (PWGUpdater.update_core m s lambda_adv iteration noise batch).trace) ∧
    (iteration ≤ s →
      (PWGUpdater.update_core m s lambda_adv iteration noise batch).gen_loss =
        (m.criterion_stft (m.generator noise batch.2) batch.1).1 +
        (m.criterion_stft (m.generator noise batch.2) batch.1).2 ∧
      ∀ e ∈ (PWGUpdater.update_core m s lambda_adv iteration noise batch).trace,
        e ≠ PWGEvent.optimizerDStep ∧ e ≠ PWGEvent.schedulerDStep ∧
        e ≠ PWGEvent.optimizerDClearGrad ∧ e ≠ PWGEvent.disLossBackward) := by
  constructor
  · intro hgt
    simp only [PWGUpdater.update_core, gt_iff_lt, hgt, if_pos]
    constructor
    · ring
    · simp
  · intro hle
    have hng : ¬ (s < iteration) := not_lt.mpr hle
    simp only [PWGUpdater.update_core, gt_iff_lt, hng, if_neg, if_false]
    constructor
    · ring
    · intro e he
      simp at he
      rcases he with h | h | h | h | h <;> subst h <;> simp

/-- C1 witness: at `iteration = 5 > 3 = start steps` the adversarial term
is present and the discriminator steps; at `iteration = 3 ≤ 3` the
generator loss is the STFT loss alone. -/
theorem C1_warmup_gating_witness :
    ((PWGUpdater.update_core pwgTestModels 3 2 5 () ((), ())).gen_loss = 3 + 5 + 2 * 7 ∧
      PWGEvent.optimizerDStep ∈ (PWGUpdater.update_core pwgTestModels 3 2 5 () ((), ())).trace) ∧
    (PWGUpdater.update_core pwgTestModels 3 2 3 () ((), ())).gen_loss = 3 + 5 := by
  refine ⟨(C1_warmup_gating pwgTestModels 3 2 5 () ((), ())).1 (by decide), ?_⟩
  exact ((C1_warmup_gating pwgTestModels 3 2 3 () ((), ())).2 (by decide)).1

/-- C2: the backpropagated generator loss of `PWGUpdater.update_core`.
Past the warm-up threshold it equals `sc_loss + mag_loss + lambda_adv *
adv_loss`, with `(sc_loss, mag_loss)` the multi-resolution STFT criterion
on the generated and the real waveform and `adv_loss` the MSE of the
discriminator output on the generated waveform against an all-ones
target; at or before the threshold it equals `sc_loss + mag_loss`. -/
theorem C2_generator_loss {T : Type} (m : PWGModels T)
    (s : ℕ) (lambda_adv : ℚ) (iteration : ℕ) (noise : T) (wav mel : T) :
    (PWGUpdater.update_core m s lambda_adv iteration noise (wav, mel)).gen_loss =
      if iteration > s then
        (m.criterion_stft (m.generator noise mel) wav).1 +
        (m.criterion_stft (m.generator noise mel) wav).2 +
        lambda_adv * m.criterion_mse (m.discriminator (m.generator noise mel))
          (m.ones_like (m.discriminator (m.generator noise mel)))
      else
        (m.criterion_stft (m.generator noise mel) wav).1 +
        (m.criterion_stft (m.generator noise mel) wav).2 := by
  by_cases h : iteration > s
  · simp only [PWGUpdater.update_core, h, if_pos]
    ring
  · simp only [PWGUpdater.update_core, h, if_neg, if_false]
    ring

/-- The optimizer/scheduler step events of a trace, in order. -/
def stepEventsOf (tr : List PWGEvent) : List PWGEvent :=
  tr.filter PWGEvent.isStep

/-- C4: ordering of optimization steps inside `PWGUpdater.update_core`.
The subsequence of optimizer/scheduler step events of the trace is exactly
`[optimizerGStep, schedulerGStep]` when the warm-up gate is closed, and
exactly `[optimizerGStep, schedulerGStep, optimizerDStep, schedulerDStep]`
when it is open: one generator optimizer step and one generator scheduler
step on every call, followed (never preceded) by exactly one discriminator
optimizer step and one discriminator scheduler step past the threshold. -/
theorem C4_step_order {T : Type} (m : PWGModels T)
    (s : ℕ) (lambda_adv : ℚ) (iteration : ℕ) (noise : T) (batch : T × T) :
    stepEventsOf (PWGUpdater.update_core m s lambda_adv iteration noise batch).trace =
      if iteration > s then
        [PWGEvent.optimizerGStep, PWGEvent.schedulerGStep,
         PWGEvent.optimizerDStep, PWGEvent.schedulerDStep]
      else
        [PWGEvent.optimizerGStep, PWGEvent.schedulerGStep] := by
  by_cases h : iteration > s
  · simp only [PWGUpdater.update_core, h, if_pos, stepEventsOf]
    rfl
  · simp only [PWGUpdater.update_core, h, if_neg, if_false, stepEventsOf]
    rfl

/-- Events performed by the punctuation-restoration `Trainer` methods:
forward passes, criterion evaluations, metric reports, and the
parameter-updating operations of `train_batch` (backward, optimizer step,
optimizer clear_grad). -/
inductive TrainEvent
  | modelForward
  | critEval
  | lossBackward
  | optimizerStep
  | optimizerClearGrad
  | report
deriving DecidableEq, Repr

/-- Events that update the model parameters or the gradients. -/
def TrainEvent.isParamUpdate : TrainEvent → Bool
  | .lossBackward | .optimizerStep | .optimizerClearGrad => true
  | .modelForward | .critEval | .report => false

/-- State of the punctuation-restoration model as the trainer sees it: its
trainable parameters (abstract, type `P`) and its train/eval mode flag
(`model.train()` / `model.eval()` toggle the flag, never the
parameters). -/
structure PuncModelState (P : Type) where
  params : P
  training : Bool
deriving DecidableEq, Repr

/-- The iteration and epoch counters of the `Trainer`
(`self.iteration`, `self.epoch`). -/
structure TrainerCounters where
  iteration : ℕ
  epoch : ℕ
deriving DecidableEq, Repr

/-- The pure functions `Trainer.valid` composes, abstract over the tensor
type `T` and the parameter type `P`: the model forward pass (a function of
the parameters and the input, returning `(y, logit)`), the criterion
`self.crit`, the reshape of the label to one axis, the finiteness test
`paddle.isfinite` on the loss value, and `batch[1].shape[0]`, the number
of utterances of a batch. -/
structure ValidEnv (T P : Type) where
  forward : P → T → T × T
  crit : T → T → ℚ
  labelReshape : T → T
  isFinite : ℚ → Bool
  numUtts : T → ℕ

/-- The loss value `self.crit(y, label)` that `Trainer.valid` computes for
one batch `(input, label)`. -/
def validBatchLoss {T P : Type} (env : ValidEnv T P) (params : P)
    (batch : T × T) : ℚ :=
  env.crit (env.forward params batch.1).1 (env.labelReshape batch.2)

/-- One iteration of the `Trainer.valid` loop over
`(num_seen_utts, total_loss)`: a batch with finite loss adds its utterance
count to `num_seen_utts` and `float(loss) * num_utts` to `total_loss`; a
batch with non-finite loss changes neither. -/
def validStep {T P : Type} (env : ValidEnv T P) (params : P)
    (acc : ℕ × ℚ) (batch : T × T) : ℕ × ℚ :=
  let loss := validBatchLoss env params batch
  if env.isFinite loss then
    (acc.1 + env.numUtts batch.2, acc.2 + loss * (env.numUtts batch.2 : ℚ))
  else acc

/-- Result of `Trainer.valid`: the returned pair
`(total_loss / num_seen_utts, F1_score)`, whether gradient computation was
enabled during the pass (the method body runs under the
`@paddle.no_grad()` decorator), and the trace of events. -/
structure ValidResult where
  avg_loss : ℚ
  f1 : ℚ
  gradEnabled : Bool
  trace : List TrainEvent
deriving DecidableEq, Repr

/-- Embedding of `Trainer.valid` (trainer.py, lines 399-444).  It sets the
model to eval mode, initializes `num_seen_utts = 1` and `total_loss = 0.0`,
folds `validStep` over the validation batches, and returns
`total_loss / num_seen_utts` together with the macro F1 score (`f1` is the
abstract value of `sklearn.f1_score` on the collected labels and
predictions).  It performs only forward passes, criterion evaluations and
log reports, under disabled gradient computation, and returns the model
state and the counters it was given with only the mode flag changed. -/
def Trainer.valid {T P : Type} (env : ValidEnv T P) (f1 : ℚ)
    (model : PuncModelState P) (counters : TrainerCounters)
    (batches : List (T × T)) :
    ValidResult × PuncModelState P × TrainerCounters :=
  let model2 : PuncModelState P := { model with training := false }
  let acc := batches.foldl (validStep env model2.params) (1, 0)
  ({ avg_loss := acc.2 / (acc.1 : ℚ)
     f1 := f1
     gradEnabled := false
     trace := batches.flatMap (fun _ => [.modelForward, .critEval]) ++ [.report] },
   model2, counters)

/-- Folding `validStep` from `(n, q)` adds the utterance counts of the
finite-loss batches to `n` and their `loss * num_utts` products to `q`. -/
theorem validStep_foldl {T P : Type} (env : ValidEnv T P) (params : P)
    (batches : List (T × T)) (n : ℕ) (q : ℚ) :
    batches.foldl (validStep env params) (n, q) =
      (n + ((batches.filter
          (fun b => env.isFinite (validBatchLoss env params b))).map
          (fun b => env.numUtts b.2)).sum,
       q + ((batches.filter
          (fun b => env.isFinite (validBatchLoss env params b))).map
          (fun b => validBatchLoss env params b * (env.numUtts b.2 : ℚ))).sum) := by
  induction batches generalizing n q with
  | nil => simp
  | cons b bs ih =>
    by_cases h : env.isFinite (validBatchLoss env params b)
    · simp only [List.foldl_cons, validStep, h, if_pos, List.filter_cons_of_pos,
        List.map_cons, List.sum_cons, ih, Prod.mk.injEq]
      exact ⟨by omega, by ring⟩
    · simp only [List.foldl_cons, validStep, h, if_neg, Bool.false_eq_true,
        not_false_iff, List.filter_cons_of_neg, ih]

/-- C9: the first value returned by `Trainer.valid` equals the sum over
the finite-loss batches of `float(loss) * num_utts`, divided by one plus
the total utterance count of those batches — the extra one coming from
`num_seen_utts` being initialized to `1`; non-finite-loss batches
contribute to neither numerator nor denominator. -/
theorem C9_valid_average {T P : Type} (env : ValidEnv T P) (f1 : ℚ)
    (model : PuncModelState P) (counters : TrainerCounters)
    (batches : List (T × T)) :
    (Trainer.valid env f1 model counters batches).1.avg_loss =
      ((batches.filter
          (fun b => env.isFinite (validBatchLoss env model.params b))).map
          (fun b => validBatchLoss env model.params b * (env.numUtts b.2 : ℚ))).sum /
      (1 + ((batches.filter
          (fun b => env.isFinite (validBatchLoss env model.params b))).map
          (fun b => (env.numUtts b.2 : ℚ))).sum) := by
  simp only [Trainer.valid, validStep_foldl, zero_add]
  push_cast
  rw [List.map_map]
  rfl

/-- C5: evaluation is forward-only.  `Trainer.valid` emits no
parameter-updating event (no optimizer step, no clear_grad, no backward),
returns the model with the same parameters and the counters unchanged, and
runs with gradient computation disabled; `PWGEvaluator.evaluate_core`
likewise emits no parameter-updating event. -/
theorem C5_eval_forward_only {T P T2 : Type} (env : ValidEnv T P) (f1 : ℚ)
    (model : PuncModelState P) (counters : TrainerCounters)
    (batches : List (T × T)) (m : PWGModels T2) (lambda_adv : ℚ)
    (noise : T2) (batch : T2 × T2) :
    (∀ e ∈ (Trainer.valid env f1 model counters batches).1.trace,
        e.isParamUpdate = false) ∧
    (Trainer.valid env f1 model counters batches).2.1.params = model.params ∧
    (Trainer.valid env f1 model counters batches).2.2 = counters ∧
    (Trainer.valid env f1 model counters batches).1.gradEnabled = false ∧
    (∀ e ∈ (PWGEvaluator.evaluate_core m lambda_adv noise batch).trace,
        e.isParamUpdate = false) := by
  refine ⟨?_, rfl, rfl, rfl, ?_⟩
  · intro e he
    simp only [Trainer.valid, List.mem_append, List.mem_flatMap, List.mem_cons,
      List.not_mem_nil, or_false] at he
    rcases he with ⟨b, _, h | h⟩ | h <;> subst h <;> rfl
  · intro e he
    simp only [PWGEvaluator.evaluate_core, List.mem_cons, List.not_mem_nil,
      or_false] at he
    rcases he with h | h | h <;> subst h <;> rfl

/-- Concrete validation environment over unit tensors for witnesses: the
criterion always returns `2`, every loss is finite and every batch has
three utterances. -/
def validTestEnv : ValidEnv Unit Unit :=
  { forward := fun _ _ => ((), ())
    crit := fun _ _ => 2
    labelReshape := fun t => t
    isFinite := fun _ => true
    numUtts := fun _ => 3 }

/-- C5 witness: at a concrete environment, model and one-batch loader, the
forward event of the validation trace and the generator-forward event of
the evaluator trace are not parameter updates. -/
theorem C5_eval_forward_only_witness :
    TrainEvent.isParamUpdate TrainEvent.modelForward = false ∧
    PWGEvent.isParamUpdate PWGEvent.generatorForward = false := by
  have h := C5_eval_forward_only validTestEnv 0 ⟨(), true⟩ ⟨4, 2⟩
    [((), ())] pwgTestModels 2 () ((), ())
  exact ⟨h.1 TrainEvent.modelForward (by decide),
    h.2.2.2.2 PWGEvent.generatorForward (by decide)⟩

/-- C10: `PWGEvaluator.evaluate_core` applies no warm-up gating — it is
not even passed an iteration count — and on every call the reported
generator loss includes the `lambda_adv`-weighted adversarial loss on top
of the two STFT losses, while `losses_dict` always carries all seven
keys in insertion order. -/
theorem C10_evaluate_core_ungated {T : Type} (m : PWGModels T)
    (lambda_adv : ℚ) (noise : T) (wav mel : T) :
    (PWGEvaluator.evaluate_core m lambda_adv noise (wav, mel)).losses_dict.map
        Prod.fst =
      ["adversarial_loss", "spectral_convergence_loss",
       "log_stft_magnitude_loss", "generator_loss", "real_loss", "fake_loss",
       "discriminator_loss"] ∧
    (PWGEvaluator.evaluate_core m lambda_adv noise (wav, mel)).gen_loss =
      lambda_adv * m.criterion_mse (m.discriminator (m.generator noise mel))
        (m.ones_like (m.discriminator (m.generator noise mel))) +
      ((m.criterion_stft (m.generator noise mel) wav).1 +
       (m.criterion_stft (m.generator noise mel) wav).2) := by
  exact ⟨rfl, rfl⟩

/-- The `infos` metadata dict that `Trainer.save` passes to the checkpoint
manager: the `"step"`, `"epoch"` and `"lr"` entries it always sets, plus
the caller-provided auxiliary metric entries (e.g. `val_loss`, `F1`). -/
structure CheckpointInfos where
  step : ℕ
  epoch : ℕ
  lr : ℚ
  extra : List (String × ℚ)
deriving DecidableEq, Repr

/-- Modelled from the spec: the checkpoint manager
(`Checkpoint.add_checkpoint` / `Checkpoint.load_parameters` of
`speechtask/punctuation_restoration/utils/checkpoint.py`) is not under
`src/`; only its caller `Trainer` is.  Per the spec, a checkpoint record
is an "epoch/iteration tag, serialized model parameters, optimizer state,
auxiliary metrics (loss, F1); created on save, read on resume".  The store
holds the most recent record: `add_checkpoint` stores one,
`load_parameters` yields the stored record when a checkpoint exists and
nothing otherwise. -/
structure CheckpointStore (P O : Type) where
  latest : Option (P × O × CheckpointInfos)
deriving DecidableEq, Repr

/-- Modelled from the spec: storing a checkpoint record (model parameters,
optimizer state, infos metadata). -/
def Checkpoint.add_checkpoint {P O : Type} (_store : CheckpointStore P O)
    (params : P) (opt : O) (infos : CheckpointInfos) : CheckpointStore P O :=
  { latest := some (params, opt, infos) }

/-- Modelled from the spec: reading back the stored checkpoint record, if
any. -/
def Checkpoint.load_parameters {P O : Type} (store : CheckpointStore P O) :
    Option (P × O × CheckpointInfos) :=
  store.latest

/-- The persistent half of the `Trainer` state that save/resume touch: the
process rank, the iteration and epoch counters, the model parameters, the
optimizer state and the current learning rate. -/
structure TrainerPersistState (P O : Type) where
  rank : ℕ
  iteration : ℕ
  epoch : ℕ
  modelParams : P
  optState : O
  lr : ℚ
deriving DecidableEq, Repr

/-- Embedding of `Trainer.save` (trainer.py, lines 157-174).  The method
is decorated `@mp_tools.rank_zero_only`, so it is a no-op on nonzero
ranks; on rank zero it updates the caller's `infos` with
`"step" = self.iteration`, `"epoch" = self.epoch`, `"lr"` and hands the
record to `Checkpoint.add_checkpoint`. -/
def Trainer.save {P O : Type} (st : TrainerPersistState P O)
    (store : CheckpointStore P O) (extra : List (String × ℚ)) :
    CheckpointStore P O :=
  if st.rank = 0 then
    Checkpoint.add_checkpoint store st.modelParams st.optState
      { step := st.iteration, epoch := st.epoch, lr := st.lr, extra := extra }
  else store

/-- Embedding of `Trainer.resume_or_scratch` (trainer.py, lines 176-199).
When `Checkpoint.load_parameters` finds a record it restores the model
parameters and optimizer state, sets `self.iteration = infos["step"]` and
`self.epoch = infos["epoch"]` and returns `False`; otherwise it sets both
counters to `0` and returns `True`. -/
def Trainer.resume_or_scratch {P O : Type} (st : TrainerPersistState P O)
    (store : CheckpointStore P O) : TrainerPersistState P O × Bool :=
  match Checkpoint.load_parameters store with
  | some r =>
      ({ st with modelParams := r.1, optState := r.2.1,
                 iteration := r.2.2.step, epoch := r.2.2.epoch }, false)
  | none => ({ st with iteration := 0, epoch := 0 }, true)

/-- C3: save-then-resume restores the trainer counters.  After a rank-zero
`Trainer.save`, a `Trainer.resume_or_scratch` on the resulting store sets
`iteration` and `epoch` back to the saved values and returns `false`; on
an empty store it sets both counters to `0` and returns `true`. -/
theorem C3_save_resume {P O : Type} (st st2 : TrainerPersistState P O)
    (store : CheckpointStore P O) (extra : List (String × ℚ))
    (h : st.rank = 0) :
    ((Trainer.resume_or_scratch st2 (Trainer.save st store extra)).1.iteration
        = st.iteration ∧
      (Trainer.resume_or_scratch st2 (Trainer.save st store extra)).1.epoch
        = st.epoch ∧
      (Trainer.resume_or_scratch st2 (Trainer.save st store extra)).2
        = false) ∧
    ((Trainer.resume_or_scratch st2 ⟨none⟩).1.iteration = 0 ∧
      (Trainer.resume_or_scratch st2 ⟨none⟩).1.epoch = 0 ∧
      (Trainer.resume_or_scratch st2 ⟨none⟩).2 = true) := by
  refine ⟨?_, rfl, rfl, rfl⟩
  simp [Trainer.save, h, Checkpoint.add_checkpoint, Trainer.resume_or_scratch,
    Checkpoint.load_parameters]

/-- C3 witness: a concrete rank-zero trainer with counters `(7, 4)` saves,
a fresh trainer resumes to `(7, 4)` with `false`; an empty store yields
`(0, 0)` with `true`. -/
theorem C3_save_resume_witness :
    let st : TrainerPersistState Unit Unit :=
      { rank := 0, iteration := 7, epoch := 4, modelParams := (),
        optState := (), lr := 1 }
    let st2 : TrainerPersistState Unit Unit :=
      { rank := 0, iteration := 11, epoch := 9, modelParams := (),
        optState := (), lr := 1 }
    ((Trainer.resume_or_scratch st2 (Trainer.save st ⟨none⟩ [])).1.iteration
        = 7 ∧
      (Trainer.resume_or_scratch st2 (Trainer.save st ⟨none⟩ [])).1.epoch
        = 4 ∧
      (Trainer.resume_or_scratch st2 (Trainer.save st ⟨none⟩ [])).2
        = false) ∧
    ((Trainer.resume_or_scratch st2 ⟨none⟩).1.iteration = 0 ∧
      (Trainer.resume_or_scratch st2 ⟨none⟩).1.epoch = 0 ∧
      (Trainer.resume_or_scratch st2 ⟨none⟩).2 = true) := by
  exact C3_save_resume _ _ ⟨none⟩ [] rfl

/-- A Python runtime error raised by the embedded fragments: looking up an
unbound bare name raises `NameError`. -/
inductive PyError
  | nameError (missing : String)
deriving DecidableEq, Repr

/-- The local names bound in the body of `Trainer.train` (trainer.py,
lines 208-265) by the time control reaches the visualizer logging of
line 254: the resume flag, the loop variables of the per-epoch pass and
the two values returned by `self.valid()`.  The bare name `cv_loss` of
line 256 is bound nowhere in the method, the module or the builtins. -/
def trainLocals : List String :=
  ["from_scratch", "i", "data_start_time", "batch_index", "batch",
   "dataload_time", "msg", "t", "total_loss", "F1_score"]

/-- Python bare-name resolution against an environment of bound names:
an unbound name raises `NameError`. -/
def lookupLocal (env : List String) (n : String) : Except PyError Unit :=
  if n ∈ env then Except.ok () else Except.error (PyError.nameError n)

/-- The loop counters of `Trainer.train` together with the number of
`self.lr_scheduler.step()` calls made so far. -/
structure TrainLoopState where
  iteration : ℕ
  epoch : ℕ
  schedSteps : ℕ
deriving DecidableEq, Repr

/-- Embedding of the per-epoch tail of `Trainer.train` (trainer.py, lines
251-265), after `total_loss, F1_score = self.valid()`: when
`self.visualizer` is set (the rank-zero process) it evaluates the
`add_scalar` arguments, whose `value=cv_loss` looks up the unbound name
`cv_loss`; then it would write the `eval/cv_loss` and `eval/lr` scalars,
save the epoch checkpoint, call `self.lr_scheduler.step()` once and
`self.new_epoch()` (which increments `epoch`).  Returns the updated
counters and the list of visualizer scalar tags written, or the raised
error. -/
def Trainer.trainEpochTail (visualizerSet : Bool) (st : TrainLoopState) :
    Except PyError (TrainLoopState × List String) :=
  let writesE : Except PyError (List String) :=
    if visualizerSet then
      match lookupLocal trainLocals "cv_loss" with
      | Except.error e => Except.error e
      | Except.ok _ => Except.ok ["eval/cv_loss", "eval/lr"]
    else Except.ok []
  match writesE with
  | Except.error e => Except.error e
  | Except.ok writes =>
      Except.ok ({ st with schedSteps := st.schedSteps + 1,
                           epoch := st.epoch + 1 }, writes)

/-- C6: with `self.visualizer` set, the per-epoch visualizer logging of
`Trainer.train` references the unbound name `cv_loss` and raises
`NameError` before any scalar is written; with the visualizer unset the
epoch tail completes normally (checkpoint, scheduler step, epoch
increment) and writes no visualizer scalar. -/
theorem C6_cv_loss_name_error (st : TrainLoopState) :
    Trainer.trainEpochTail true st =
      Except.error (PyError.nameError "cv_loss") ∧
    Trainer.trainEpochTail false st =
      Except.ok ({ st with schedSteps := st.schedSteps + 1,
                           epoch := st.epoch + 1 }, []) := by
  exact ⟨rfl, rfl⟩

/-- The `paddle.optimizer.lr.ExponentialDecay` schedule that
`Trainer.setup_model` builds: its constructor arguments
`learning_rate = config["training"]["lr"]` and
`gamma = config["training"]["lr_decay"]`. -/
structure ExponentialDecay where
  learning_rate : ℚ
  gamma : ℚ
deriving DecidableEq, Repr

/-- Semantics of the framework's exponential decay (modelled from the
spec's "exponential learning-rate decay"): after `n` scheduler steps the
learning rate is `learning_rate * gamma ^ n`. -/
def ExponentialDecay.lrAt (s : ExponentialDecay) (n : ℕ) : ℚ :=
  s.learning_rate * s.gamma ^ n

/-- The `paddle.regularizer.L2Decay` regularizer with its coefficient
`config["training"]["weight_decay"]`. -/
structure L2Decay where
  coeff : ℚ
deriving DecidableEq, Repr

/-- The `paddle.optimizer.Adam` optimizer that `Trainer.setup_model`
builds: driven by the learning-rate schedule, over the model parameters,
with an L2Decay weight decay. -/
structure AdamOptimizer (P : Type) where
  learning_rate : ExponentialDecay
  parameters : P
  weight_decay : L2Decay
deriving DecidableEq, Repr

/-- The `config["training"]` fields that `Trainer.setup_model` and
`Trainer.train` read. -/
structure TrainingConfig where
  lr : ℚ
  lr_decay : ℚ
  weight_decay : ℚ
  n_epoch : ℕ
deriving DecidableEq, Repr

/-- Embedding of `Trainer.setup_model` (trainer.py, lines 446-473),
restricted to the optimization recipe: it builds an `ExponentialDecay`
schedule from `config["training"]["lr"]` and
`config["training"]["lr_decay"]` and an `Adam` optimizer over the model
parameters with `L2Decay(config["training"]["weight_decay"])`, the
schedule driving the optimizer. -/
def Trainer.setup_model {P : Type} (cfg : TrainingConfig) (modelParams : P) :
    ExponentialDecay × AdamOptimizer P :=
  let lr_scheduler : ExponentialDecay :=
    { learning_rate := cfg.lr, gamma := cfg.lr_decay }
  let optimizer : AdamOptimizer P :=
    { learning_rate := lr_scheduler, parameters := modelParams,
      weight_decay := { coeff := cfg.weight_decay } }
  (lr_scheduler, optimizer)

/-- C8: the reference optimization recipe.  `Trainer.setup_model` yields
an exponential-decay schedule with initial rate `config training.lr` and
decay factor `config training.lr_decay` (so the rate after `n` steps is
`lr * lr_decay ^ n`), and an Adam optimizer over the model parameters
whose weight decay is `L2Decay (config training.weight_decay)` and whose
learning rate is that schedule; the per-epoch tail of `Trainer.train`
performs exactly one `lr_scheduler.step()` per completed epoch. -/
theorem C8_optimization_recipe {P : Type} (cfg : TrainingConfig) (p : P)
    (st : TrainLoopState) (n : ℕ) :
    (Trainer.setup_model cfg p).1.learning_rate = cfg.lr ∧
    (Trainer.setup_model cfg p).1.gamma = cfg.lr_decay ∧
    (Trainer.setup_model cfg p).1.lrAt n = cfg.lr * cfg.lr_decay ^ n ∧
    (Trainer.setup_model cfg p).2.learning_rate = (Trainer.setup_model cfg p).1 ∧
    (Trainer.setup_model cfg p).2.parameters = p ∧
    (Trainer.setup_model cfg p).2.weight_decay = { coeff := cfg.weight_decay } ∧
    Trainer.trainEpochTail false st =
      Except.ok ({ st with schedSteps := st.schedSteps + 1,
                           epoch := st.epoch + 1 }, []) := by
  exact ⟨rfl, rfl, rfl, rfl, rfl, rfl, rfl⟩

/-- `paddle.unsqueeze(label, axis=2)`: a `[B, T]` integer label tensor
becomes `[B, T, 1]`. -/
def paddleUnsqueezeAxis2 {B Tn : ℕ} (label : Fin B → Fin Tn → ℕ) :
    Fin B → Fin Tn → Fin 1 → ℕ :=
  fun b t _ => label b t

/-- `paddle.nn.functional.cross_entropy(input=y, label=label,
reduction="none")` on a `[B, T, C]` logits tensor and a `[B, T, 1]` label
tensor: the `[B, T, 1]` tensor of per-token losses, where `tokenCE` is the
framework's token-level cross-entropy of a logits row against a class
index (an abstract parameter of the embedding). -/
def crossEntropyUnreduced {B Tn C : ℕ} (tokenCE : (Fin C → ℚ) → ℕ → ℚ)
    (y : Fin B → Fin Tn → Fin C → ℚ) (label : Fin B → Fin Tn → Fin 1 → ℕ) :
    Fin B → Fin Tn → Fin 1 → ℚ :=
  fun b t i => tokenCE (y b t) (label b t i)

/-- `paddle.squeeze(loss, axis=[2])`: `[B, T, 1]` back to `[B, T]`. -/
def paddleSqueezeAxis2 {B Tn : ℕ} (x : Fin B → Fin Tn → Fin 1 → ℚ) :
    Fin B → Fin Tn → ℚ :=
  fun b t => x b t 0

/-- `paddle.mean(loss, axis=[0])`: the per-position mean over the batch
axis of a `[B, T]` tensor. -/
def paddleMeanAxis0 {B Tn : ℕ} (x : Fin B → Fin Tn → ℚ) : Fin Tn → ℚ :=
  fun t => (∑ b, x b t) / (B : ℚ)

/-- `paddle.sum(loss)` on a `[T]` tensor. -/
def paddleSumAll {Tn : ℕ} (x : Fin Tn → ℚ) : ℚ := ∑ t, x t

/-- Embedding of `CrossEntropyLossForLm.forward` (lstm.py, lines 78-85).
`CrossEntropyLossForLm.__init__` defines no attributes, so the module has
no state and `forward` is a pure function of its tensor arguments: it
unsqueezes the label on axis 2, takes the unreduced token-level
cross-entropy, squeezes axis 2 back, takes the mean over axis 0 (the
batch) and sums over the remaining (sequence) axis. -/
def CrossEntropyLossForLm.forward {B Tn C : ℕ}
    (tokenCE : (Fin C → ℚ) → ℕ → ℚ) (y : Fin B → Fin Tn → Fin C → ℚ)
    (label : Fin B → Fin Tn → ℕ) : ℚ :=
  let label2 := paddleUnsqueezeAxis2 label
  let loss := crossEntropyUnreduced tokenCE y label2
  let loss2 := paddleSqueezeAxis2 loss
  let loss3 := paddleMeanAxis0 loss2
  paddleSumAll loss3

/-- C7: `CrossEntropyLossForLm.forward` is a pure function of `(y, label)`
— the module carries no state the embedding could thread — and for every
input pair it returns the sum over the sequence positions of the
per-position mean over the batch of the unreduced token-level
cross-entropy of `y` against `label`. -/
theorem C7_cross_entropy_reduction {B Tn C : ℕ}
    (tokenCE : (Fin C → ℚ) → ℕ → ℚ) (y : Fin B → Fin Tn → Fin C → ℚ)
    (label : Fin B → Fin Tn → ℕ) :
    CrossEntropyLossForLm.forward tokenCE y label =
      ∑ t : Fin Tn, (∑ b : Fin B, tokenCE (y b t) (label b t)) / (B : ℚ) := by
  rfl
